import Mathlib

/-!
Verification of `layer/input_buffer.py` (NiftyNet): the
`InputBatchQueueRunner` class, a wrapper around a TF shuffled/FIFO queue
with multiple producer threads (`_push`), a size query
(`current_queue_size`) and a shutdown entry point (`close_all`).

The embedding is shallow: the producer loop `_push` becomes a pure
function over the (finite) list of patches yielded by the sampler's
iterator, together with three time-indexed external signals
(`session._closed`, `coordinator.should_stop()`, and whether a
`session.run(enqueue_op)` call raises `tf.errors.CancelledError`).
Each loop iteration of the Python code consumes one time tick.
Machine integers in the source are plain Python 2 ints; they are
modelled as `Nat` (the source is Python 2: `dict.keys()[0]` and the
floor semantics of `capacity / 2` both require it).
-/

/-- A patch produced by the sampler.  `isImagePatch` models the
`isinstance(patch, ImagePatch)` test; `fields` models
`patch.as_dict()`, a mapping field-name -> value where each value is
represented by its Python `len(...)` (for the image arrays fed to the
queue, `len` is the first dimension). -/
structure ImagePatch where
  isImagePatch : Bool
  fields : List (String × Nat)
deriving DecidableEq

/-- External environment of one producer thread: the three signals read
inside `_push`, indexed by the loop tick at which they are read.
`closed t` is `self._session._closed`, `stop t` is
`self._coordinator.should_stop()`, and `cancel t` is true when the
`session.run(enqueue_op)` issued at tick `t` raises
`tf.errors.CancelledError` (queue closed while blocked). -/
structure Env where
  closed : Nat → Bool
  stop : Nat → Bool
  cancel : Nat → Bool

/-- A signal that, once raised, stays raised (the session's closed flag
and the coordinator's stop flag are both monotone in the source). -/
def MonoSig (f : Nat → Bool) : Prop :=
  ∀ s t : Nat, s ≤ t → f s = true → f t = true

/-- Observable outcome of one `_push` execution: the ticks at which a
real record was enqueued, the ticks at which a stopping patch was
enqueued, whether the generic exception handlers ran (they `print` the
error and call `self.close_all()`), whether the thread exited without a
handled error, and the tick of a caught `CancelledError` (the
`except tf.errors.CancelledError: pass` branch) if any. -/
structure PushOutcome where
  realEnq : List Nat
  stopEnq : List Nat
  closeAllCalled : Bool
  cleanExit : Bool
  cancelledAt : Option Nat
deriving DecidableEq

/-- Outcome of falling off the end of `_push` with no exception. -/
def cleanOut : PushOutcome := ⟨[], [], false, true, none⟩

/-- Outcome of the `except tf.errors.CancelledError: pass` branch:
no error is logged and `close_all` is not called. -/
def cancelOut (t : Nat) : PushOutcome := ⟨[], [], false, true, some t⟩

/-- Outcome of the `except ValueError/RuntimeError/Exception` branches:
the error is printed and `self.close_all()` is called. -/
def errorOut : PushOutcome := ⟨[], [], true, false, none⟩

/-- Record a real-record enqueue at tick `t` in front of a later outcome. -/
def addReal (t : Nat) (o : PushOutcome) : PushOutcome :=
  { o with realEnq := t :: o.realEnq }

/-- Record a stopping-patch enqueue at tick `t` in front of a later outcome. -/
def addStop (t : Nat) (o : PushOutcome) : PushOutcome :=
  { o with stopEnq := t :: o.stopEnq }

/-- The body-level assertions of the producer loop, in source order:
`assert isinstance(patch, ImagePatch)` and
`assert len(patch_dict.keys()[0]) == len(patch_dict.values()[0])`.
Note the second assertion compares the character length of the FIRST
field name with the `len` of the FIRST value; on an empty dict
`keys()[0]` raises `IndexError` instead (also caught by the generic
handler, hence also `false` here). -/
def checkPatch (p : ImagePatch) : Bool :=
  p.isImagePatch &&
    match p.fields with
    | [] => false
    | (k, v) :: _ => k.length == v

/-- The spec's own acceptance condition, stated from its words for
comparison with `checkPatch`: "a record whose field cardinality does
not match the declared schema" is rejected, where the declared schema
is the sampler's list of placeholder names. -/
def cardinalityMatches (schema : List String) (p : ImagePatch) : Bool :=
  p.fields.length == schema.length

/-- The sentinel-flood loop
`for i in range(0, self.capacity): ...` of `_push`, entered after the
iteration loop ends.  `last` is the current binding of the Python loop
variable `patch` (`none` when the iterator yielded nothing, in which
case `patch.fill_with_stopping_info()` raises `UnboundLocalError`,
caught by the generic `except Exception` handler).  `n` counts the
remaining range iterations and `t` is the current tick. -/
def floodLoop (env : Env) (last : Option ImagePatch) : Nat → Nat → PushOutcome
  | 0, _ => cleanOut
  | n + 1, t =>
    if env.closed t then cleanOut
    else if env.stop t then cleanOut
    else
      match last with
      | none => errorOut
      | some _ =>
        if env.cancel t then cancelOut t
        else addStop t (floodLoop env last n (t + 1))

/-- The iteration loop `for patch in iterator:` of `_push`.  Python
binds `patch` to the next element before the body runs its two break
checks, so `last` is updated even on an immediate break.  When the list
is exhausted or a break fires, control reaches the sentinel flood. -/
def iterLoop (env : Env) (capacity : Nat) :
    List ImagePatch → Nat → Option ImagePatch → PushOutcome
  | [], t, last => floodLoop env last capacity t
  | p :: rest, t, _ =>
    if env.closed t then floodLoop env (some p) capacity (t + 1)
    else if env.stop t then floodLoop env (some p) capacity (t + 1)
    else if !(checkPatch p) then errorOut
    else if env.cancel t then cancelOut t
    else addReal t (iterLoop env capacity rest (t + 1) (some p))

/-- One execution of `InputBatchQueueRunner._push` on a source iterator
yielding `records` (whether the sampler was called as `self.sampler()`
or `self.sampler(self.batch_size)` only determines which iterator is
used; the yielded list is the parameter here).  `capacity` is
`self.capacity`. -/
def push (env : Env) (capacity : Nat) (records : List ImagePatch) : PushOutcome :=
  iterLoop env capacity records 0 none

/-- An environment in which the session is never closed, stop is never
requested and no enqueue is cancelled. -/
def envFalse : Env := ⟨fun _ => false, fun _ => false, fun _ => false⟩

/-- An environment in which every enqueue raises `CancelledError`. -/
def envCancel : Env := ⟨fun _ => false, fun _ => false, fun _ => true⟩

/-- Configuration state established by `InputBatchQueueRunner.__init__`:
`self.batch_size`, `self.capacity = max(capacity, batch_size * 2)`,
`self.shuffle`, and
`self.min_queue_size = self.capacity / 2 if self.shuffle else 0`
(Python 2 integer division). -/
structure RunnerConfig where
  batch_size : Nat
  capacity : Nat
  shuffle : Bool
  min_queue_size : Nat
deriving DecidableEq

/-- `InputBatchQueueRunner.__init__`: `none` models the failure of
`assert batch_size > 0` (the `isinstance(sampler, BaseSampler)` assert
concerns the external collaborator and is outside the model). -/
def initRunner (batch_size capacity : Nat) (shuffle : Bool) : Option RunnerConfig :=
  if batch_size > 0 then
    some { batch_size := batch_size
           capacity := max capacity (batch_size * 2)
           shuffle := shuffle
           min_queue_size :=
             if shuffle then (max capacity (batch_size * 2)) / 2 else 0 }
  else none

/-- State of a runner instance relevant to `run_threads`,
`close_all` and `current_queue_size`: the number of started threads
(`len(self._threads)`), whether the TF session has been closed
externally (`self._session._closed`), the coordinator's stop flag, and
whether the queue's close op has run. -/
structure RunnerState where
  threads : Nat
  sessionClosed : Bool
  stopRequested : Bool
  queueClosed : Bool
deriving DecidableEq

/-- State right after `__init__`: `self._threads = []`, no session yet. -/
def initState : RunnerState := ⟨0, false, false, false⟩

/-- `run_threads(session, coord, num_threads)`: appends `num_threads`
thread handles and starts them. -/
def run_threads (s : RunnerState) (num_threads : Nat) : RunnerState :=
  { s with threads := s.threads + num_threads }

/-- Result of a `close_all` call: either the
`RuntimeError("the queue is not currently running")` usage error, or
normal completion. -/
inductive CloseResult
  | notRunning
  | ok
deriving DecidableEq

/-- `InputBatchQueueRunner.close_all`, from the source: raise when
`self._threads` is empty; otherwise `request_stop`, `join` (a
`RuntimeError` from the join is caught and printed), and in the
`finally` block run the close op when the session is still open.

Modelled from the spec: the coordinator and the queue ops are executed
by the external engine (out of scope per the spec); the spec gives
their contracts as `requestStop` monotone and safe to repeat, and
`close(cancelPending)` "idempotent-in-effect (repeat calls are safe
no-ops beyond the first); sets closed = true". -/
def close_all (s : RunnerState) : CloseResult × RunnerState :=
  if s.threads = 0 then (CloseResult.notRunning, s)
  else
    (CloseResult.ok,
      { s with
        stopRequested := true
        queueClosed := if s.sessionClosed then s.queueClosed else true })

/-- `current_queue_size`: `0` when `self._session._closed`, otherwise
`self._session.run(self._query_queue_size_op)`, modelled as the
engine-reported buffered count `queueSize`. -/
def current_queue_size (sessionClosed : Bool) (queueSize : Nat) : Nat :=
  if sessionClosed then 0 else queueSize

/-! ### Helper lemmas about `floodLoop` and `iterLoop` -/

theorem addReal_realEnq (t : Nat) (o : PushOutcome) :
    (addReal t o).realEnq = t :: o.realEnq := rfl

theorem addReal_stopEnq (t : Nat) (o : PushOutcome) :
    (addReal t o).stopEnq = o.stopEnq := rfl

theorem addReal_closeAllCalled (t : Nat) (o : PushOutcome) :
    (addReal t o).closeAllCalled = o.closeAllCalled := rfl

theorem addReal_cleanExit (t : Nat) (o : PushOutcome) :
    (addReal t o).cleanExit = o.cleanExit := rfl

theorem addReal_cancelledAt (t : Nat) (o : PushOutcome) :
    (addReal t o).cancelledAt = o.cancelledAt := rfl

theorem addStop_realEnq (t : Nat) (o : PushOutcome) :
    (addStop t o).realEnq = o.realEnq := rfl

theorem addStop_stopEnq (t : Nat) (o : PushOutcome) :
    (addStop t o).stopEnq = t :: o.stopEnq := rfl

theorem addStop_closeAllCalled (t : Nat) (o : PushOutcome) :
    (addStop t o).closeAllCalled = o.closeAllCalled := rfl

theorem addStop_cleanExit (t : Nat) (o : PushOutcome) :
    (addStop t o).cleanExit = o.cleanExit := rfl

theorem addStop_cancelledAt (t : Nat) (o : PushOutcome) :
    (addStop t o).cancelledAt = o.cancelledAt := rfl

theorem floodLoop_closed (env : Env) (last : Option ImagePatch) (n t : Nat)
    (h : env.closed t = true) :
    floodLoop env last (n + 1) t = cleanOut := by
  simp [floodLoop, h]

theorem floodLoop_stopflag (env : Env) (last : Option ImagePatch) (n t : Nat)
    (h1 : env.closed t = false) (h2 : env.stop t = true) :
    floodLoop env last (n + 1) t = cleanOut := by
  simp [floodLoop, h1, h2]

theorem floodLoop_unbound (env : Env) (n t : Nat)
    (h1 : env.closed t = false) (h2 : env.stop t = false) :
    floodLoop env none (n + 1) t = errorOut := by
  simp [floodLoop, h1, h2]

theorem floodLoop_cancelled (env : Env) (q : ImagePatch) (n t : Nat)
    (h1 : env.closed t = false) (h2 : env.stop t = false)
    (h3 : env.cancel t = true) :
    floodLoop env (some q) (n + 1) t = cancelOut t := by
  simp [floodLoop, h1, h2, h3]

theorem floodLoop_step (env : Env) (q : ImagePatch) (n t : Nat)
    (h1 : env.closed t = false) (h2 : env.stop t = false)
    (h3 : env.cancel t = false) :
    floodLoop env (some q) (n + 1) t =
      addStop t (floodLoop env (some q) n (t + 1)) := by
  simp [floodLoop, h1, h2, h3]

theorem iterLoop_nil (env : Env) (capacity t : Nat) (last : Option ImagePatch) :
    iterLoop env capacity [] t last = floodLoop env last capacity t := rfl

theorem iterLoop_closed (env : Env) (capacity : Nat) (p : ImagePatch)
    (rest : List ImagePatch) (t : Nat) (last : Option ImagePatch)
    (h : env.closed t = true) :
    iterLoop env capacity (p :: rest) t last =
      floodLoop env (some p) capacity (t + 1) := by
  simp [iterLoop, h]

theorem iterLoop_stopflag (env : Env) (capacity : Nat) (p : ImagePatch)
    (rest : List ImagePatch) (t : Nat) (last : Option ImagePatch)
    (h1 : env.closed t = false) (h2 : env.stop t = true) :
    iterLoop env capacity (p :: rest) t last =
      floodLoop env (some p) capacity (t + 1) := by
  simp [iterLoop, h1, h2]

theorem iterLoop_badpatch (env : Env) (capacity : Nat) (p : ImagePatch)
    (rest : List ImagePatch) (t : Nat) (last : Option ImagePatch)
    (h1 : env.closed t = false) (h2 : env.stop t = false)
    (h3 : checkPatch p = false) :
    iterLoop env capacity (p :: rest) t last = errorOut := by
  simp [iterLoop, h1, h2, h3]

theorem iterLoop_cancelled (env : Env) (capacity : Nat) (p : ImagePatch)
    (rest : List ImagePatch) (t : Nat) (last : Option ImagePatch)
    (h1 : env.closed t = false) (h2 : env.stop t = false)
    (h3 : checkPatch p = true) (h4 : env.cancel t = true) :
    iterLoop env capacity (p :: rest) t last = cancelOut t := by
  simp [iterLoop, h1, h2, h3, h4]

theorem iterLoop_step (env : Env) (capacity : Nat) (p : ImagePatch)
    (rest : List ImagePatch) (t : Nat) (last : Option ImagePatch)
    (h1 : env.closed t = false) (h2 : env.stop t = false)
    (h3 : checkPatch p = true) (h4 : env.cancel t = false) :
    iterLoop env capacity (p :: rest) t last =
      addReal t (iterLoop env capacity rest (t + 1) (some p)) := by
  simp [iterLoop, h1, h2, h3, h4]

/-- Under an interruption-free environment the flood loop enqueues one
stopping patch per range iteration. -/
theorem floodLoop_count (env : Env)
    (hsig : ∀ u, env.closed u = false ∧ env.stop u = false ∧ env.cancel u = false)
    (p : ImagePatch) :
    ∀ n t, (floodLoop env (some p) n t).stopEnq.length = n := by
  intro n
  induction n with
  | zero => intro t; rfl
  | succ m ih =>
    intro t
    have h := hsig t
    rw [floodLoop_step env p m t h.1 h.2.1 h.2.2, addStop_stopEnq,
      List.length_cons, ih (t + 1)]

/-- If the session-closed or stop flag is already raised at the entry
tick, the flood loop exits at once with no enqueues. -/
theorem floodLoop_stopped (env : Env) (last : Option ImagePatch) (n t : Nat)
    (h : (env.closed t || env.stop t) = true) :
    floodLoop env last n t = cleanOut := by
  cases n with
  | zero => rfl
  | succ m =>
    cases hcl : env.closed t with
    | true => exact floodLoop_closed env last m t hcl
    | false =>
      rw [hcl, Bool.false_or] at h
      exact floodLoop_stopflag env last m t hcl h

/-- Under an interruption-free environment with every patch passing the
assertions, the iteration loop ends in a full flood of
`capacity` stopping patches, provided the Python loop variable is
bound (nonempty remaining list, or already bound). -/
theorem iterLoop_full (env : Env) (capacity : Nat)
    (hsig : ∀ u, env.closed u = false ∧ env.stop u = false ∧ env.cancel u = false) :
    ∀ (rs : List ImagePatch), (∀ p ∈ rs, checkPatch p = true) →
      ∀ (t : Nat) (last : Option ImagePatch),
        (rs ≠ [] ∨ ∃ q, last = some q) →
        (iterLoop env capacity rs t last).stopEnq.length = capacity := by
  intro rs
  induction rs with
  | nil =>
    intro _ t last hl
    rcases hl with h | ⟨q, rfl⟩
    · exact absurd rfl h
    · exact floodLoop_count env hsig q capacity t
  | cons p rest ih =>
    intro hok t last _
    have h := hsig t
    have hp : checkPatch p = true := hok p (List.mem_cons_self p rest)
    rw [iterLoop_step env capacity p rest t last h.1 h.2.1 hp h.2.2,
      addReal_stopEnq]
    exact ih (fun q hq => hok q (List.mem_cons_of_mem p hq)) (t + 1) (some p)
      (Or.inr ⟨p, rfl⟩)

/-- With monotone signals, once one of them is raised at a tick the
iteration loop would still reach, no stopping patch is ever enqueued. -/
theorem iterLoop_stopped (env : Env) (capacity : Nat)
    (hc : MonoSig env.closed) (hs : MonoSig env.stop) :
    ∀ (rs : List ImagePatch) (t u : Nat) (last : Option ImagePatch),
      t ≤ u → u < t + rs.length → (env.closed u || env.stop u) = true →
      (iterLoop env capacity rs t last).stopEnq = [] := by
  intro rs
  induction rs with
  | nil =>
    intro t u last htu hult _
    rw [List.length_nil] at hult
    omega
  | cons p rest ih =>
    intro t u last htu hult hsig
    by_cases hcl : env.closed t = true
    · have hnext : (env.closed (t + 1) || env.stop (t + 1)) = true := by
        rw [hc t (t + 1) (Nat.le_succ t) hcl, Bool.true_or]
      rw [iterLoop_closed env capacity p rest t last hcl,
        floodLoop_stopped env (some p) capacity (t + 1) hnext]
      rfl
    · rw [Bool.not_eq_true] at hcl
      by_cases hst : env.stop t = true
      · have hnext : (env.closed (t + 1) || env.stop (t + 1)) = true := by
          rw [hs t (t + 1) (Nat.le_succ t) hst, Bool.or_true]
        rw [iterLoop_stopflag env capacity p rest t last hcl hst,
          floodLoop_stopped env (some p) capacity (t + 1) hnext]
        rfl
      · rw [Bool.not_eq_true] at hst
        have htne : t ≠ u := by
          rintro rfl
          rcases Bool.or_eq_true_iff.mp hsig with h | h
          · rw [hcl] at h; exact Bool.false_ne_true h
          · rw [hst] at h; exact Bool.false_ne_true h
        have htu1 : t + 1 ≤ u := by omega
        have hult1 : u < (t + 1) + rest.length := by
          rw [List.length_cons] at hult; omega
        by_cases hchk : checkPatch p = true
        · by_cases hcan : env.cancel t = true
          · rw [iterLoop_cancelled env capacity p rest t last hcl hst hchk hcan]
            rfl
          · rw [Bool.not_eq_true] at hcan
            rw [iterLoop_step env capacity p rest t last hcl hst hchk hcan,
              addReal_stopEnq]
            exact ih (t + 1) u (some p) htu1 hult1 hsig
        · rw [Bool.not_eq_true] at hchk
          rw [iterLoop_badpatch env capacity p rest t last hcl hst hchk]
          rfl

/-- Every tick recorded as an enqueue by the flood loop has both
break-check signals unraised. -/
theorem floodLoop_mem (env : Env) (last : Option ImagePatch) :
    ∀ (n t u : Nat),
      u ∈ (floodLoop env last n t).realEnq ++ (floodLoop env last n t).stopEnq →
      env.closed u = false ∧ env.stop u = false := by
  intro n
  induction n with
  | zero =>
    intro t u hu
    rw [show floodLoop env last 0 t = cleanOut from rfl] at hu
    simp [cleanOut] at hu
  | succ m ih =>
    intro t u hu
    by_cases hcl : env.closed t = true
    · rw [floodLoop_closed env last m t hcl] at hu
      simp [cleanOut] at hu
    · rw [Bool.not_eq_true] at hcl
      by_cases hst : env.stop t = true
      · rw [floodLoop_stopflag env last m t hcl hst] at hu
        simp [cleanOut] at hu
      · rw [Bool.not_eq_true] at hst
        cases last with
        | none =>
          rw [floodLoop_unbound env m t hcl hst] at hu
          simp [errorOut] at hu
        | some q =>
          by_cases hcan : env.cancel t = true
          · rw [floodLoop_cancelled env q m t hcl hst hcan] at hu
            simp [cancelOut] at hu
          · rw [Bool.not_eq_true] at hcan
            rw [floodLoop_step env q m t hcl hst hcan, addStop_realEnq,
              addStop_stopEnq, List.mem_append, List.mem_cons] at hu
            rcases hu with h | h | h
            · exact ih (t + 1) u (List.mem_append.mpr (Or.inl h))
            · exact h ▸ ⟨hcl, hst⟩
            · exact ih (t + 1) u (List.mem_append.mpr (Or.inr h))

/-- Every tick recorded as an enqueue by the iteration loop (including
its trailing flood) has both break-check signals unraised. -/
theorem iterLoop_mem (env : Env) (capacity : Nat) :
    ∀ (rs : List ImagePatch) (t : Nat) (last : Option ImagePatch) (u : Nat),
      u ∈ (iterLoop env capacity rs t last).realEnq ++
            (iterLoop env capacity rs t last).stopEnq →
      env.closed u = false ∧ env.stop u = false := by
  intro rs
  induction rs with
  | nil =>
    intro t last u hu
    exact floodLoop_mem env last capacity t u hu
  | cons p rest ih =>
    intro t last u hu
    by_cases hcl : env.closed t = true
    · rw [iterLoop_closed env capacity p rest t last hcl] at hu
      exact floodLoop_mem env (some p) capacity (t + 1) u hu
    · rw [Bool.not_eq_true] at hcl
      by_cases hst : env.stop t = true
      · rw [iterLoop_stopflag env capacity p rest t last hcl hst] at hu
        exact floodLoop_mem env (some p) capacity (t + 1) u hu
      · rw [Bool.not_eq_true] at hst
        by_cases hchk : checkPatch p = true
        · by_cases hcan : env.cancel t = true
          · rw [iterLoop_cancelled env capacity p rest t last hcl hst hchk hcan]
              at hu
            simp [cancelOut] at hu
          · rw [Bool.not_eq_true] at hcan
            rw [iterLoop_step env capacity p rest t last hcl hst hchk hcan,
              addReal_realEnq, addReal_stopEnq, List.mem_append,
              List.mem_cons] at hu
            rcases hu with (h | h) | h
            · exact h ▸ ⟨hcl, hst⟩
            · exact ih (t + 1) (some p) u (List.mem_append.mpr (Or.inl h))
            · exact ih (t + 1) (some p) u (List.mem_append.mpr (Or.inr h))
        · rw [Bool.not_eq_true] at hchk
          rw [iterLoop_badpatch env capacity p rest t last hcl hst hchk] at hu
          simp [errorOut] at hu

/-- In every flood-loop outcome, a caught `CancelledError` implies a
clean exit without `close_all`. -/
theorem floodLoop_cancel_clean (env : Env) (last : Option ImagePatch) :
    ∀ (n t : Nat), ((floodLoop env last n t).cancelledAt.isSome = true) →
      (floodLoop env last n t).cleanExit = true ∧
      (floodLoop env last n t).closeAllCalled = false := by
  intro n
  induction n with
  | zero => intro t _; exact ⟨rfl, rfl⟩
  | succ m ih =>
    intro t hu
    by_cases hcl : env.closed t = true
    · rw [floodLoop_closed env last m t hcl]
      exact ⟨rfl, rfl⟩
    · rw [Bool.not_eq_true] at hcl
      by_cases hst : env.stop t = true
      · rw [floodLoop_stopflag env last m t hcl hst]
        exact ⟨rfl, rfl⟩
      · rw [Bool.not_eq_true] at hst
        cases last with
        | none =>
          rw [floodLoop_unbound env m t hcl hst] at hu
          simp [errorOut] at hu
        | some q =>
          by_cases hcan : env.cancel t = true
          · rw [floodLoop_cancelled env q m t hcl hst hcan]
            exact ⟨rfl, rfl⟩
          · rw [Bool.not_eq_true] at hcan
            rw [floodLoop_step env q m t hcl hst hcan, addStop_cancelledAt]
              at hu
            rw [floodLoop_step env q m t hcl hst hcan, addStop_cleanExit,
              addStop_closeAllCalled]
            exact ih (t + 1) hu

/-- In every iteration-loop outcome, a caught `CancelledError` implies a
clean exit without `close_all`. -/
theorem iterLoop_cancel_clean (env : Env) (capacity : Nat) :
    ∀ (rs : List ImagePatch) (t : Nat) (last : Option ImagePatch),
      ((iterLoop env capacity rs t last).cancelledAt.isSome = true) →
      (iterLoop env capacity rs t last).cleanExit = true ∧
      (iterLoop env capacity rs t last).closeAllCalled = false := by
  intro rs
  induction rs with
  | nil =>
    intro t last hu
    exact floodLoop_cancel_clean env last capacity t hu
  | cons p rest ih =>
    intro t last hu
    by_cases hcl : env.closed t = true
    · rw [iterLoop_closed env capacity p rest t last hcl] at hu ⊢
      exact floodLoop_cancel_clean env (some p) capacity (t + 1) hu
    · rw [Bool.not_eq_true] at hcl
      by_cases hst : env.stop t = true
      · rw [iterLoop_stopflag env capacity p rest t last hcl hst] at hu ⊢
        exact floodLoop_cancel_clean env (some p) capacity (t + 1) hu
      · rw [Bool.not_eq_true] at hst
        by_cases hchk : checkPatch p = true
        · by_cases hcan : env.cancel t = true
          · rw [iterLoop_cancelled env capacity p rest t last hcl hst hchk hcan]
            exact ⟨rfl, rfl⟩
          · rw [Bool.not_eq_true] at hcan
            rw [iterLoop_step env capacity p rest t last hcl hst hchk hcan,
              addReal_cancelledAt] at hu
            rw [iterLoop_step env capacity p rest t last hcl hst hchk hcan,
              addReal_cleanExit, addReal_closeAllCalled]
            exact ih (t + 1) (some p) hu
        · rw [Bool.not_eq_true] at hchk
          rw [iterLoop_badpatch env capacity p rest t last hcl hst hchk] at hu
          simp [errorOut] at hu

/-! ### Claim theorems -/

/-- C1 counterexample: with a source iterator yielding zero records and
no early stop, the for-loop ends normally, yet (claimed capacity = 4)
zero StopRecords are enqueued and the generic handler calls
`close_all` (the flood references the unbound loop variable `patch`). -/
theorem C1_counterexample :
    (push envFalse 4 []).stopEnq.length = 0 ∧
    (push envFalse 4 []).closeAllCalled = true := by decide

/-- C1 (amended): if the source iterator yields at least one record,
every patch passes the body assertions, and neither the session-closed
flag, the stop flag, nor an enqueue cancellation ever fires, the thread
enqueues exactly `capacity` stopping patches; and with monotone flags,
if the session closes or stop is raised at a tick the iteration loop
would still reach, no stopping patch is ever enqueued. -/
theorem C1_flood_capacity_sentinels (env : Env) (capacity : Nat)
    (records : List ImagePatch) :
    ((∀ u, env.closed u = false ∧ env.stop u = false ∧ env.cancel u = false) →
      records ≠ [] → (∀ p ∈ records, checkPatch p = true) →
      (push env capacity records).stopEnq.length = capacity) ∧
    (MonoSig env.closed → MonoSig env.stop →
      ∀ t, t < records.length → (env.closed t || env.stop t) = true →
      (push env capacity records).stopEnq = []) := by
  constructor
  · intro hsig hne hok
    exact iterLoop_full env capacity hsig records hok 0 none (Or.inl hne)
  · intro hc hs t ht hsig
    exact iterLoop_stopped env capacity hc hs records 0 t none (Nat.zero_le t)
      (by omega) hsig

theorem C1_flood_capacity_sentinels_witness :
    (push envFalse 3 [⟨true, [("ab", 2)]⟩]).stopEnq.length = 3 :=
  (C1_flood_capacity_sentinels envFalse 3 [⟨true, [("ab", 2)]⟩]).1
    (fun _ => ⟨rfl, rfl, rfl⟩) (by decide) (by decide)

/-- C2: the body assertion is not a field-cardinality check.  The patch
`⟨true, [("abc", 2)]⟩` has exactly one field, matching a one-field
schema, yet the assertion
`len(patch_dict.keys()[0]) == len(patch_dict.values()[0])` compares
`len("abc") = 3` with `2`, fails, and the generic handler calls
`close_all`; the record is never enqueued. -/
theorem C2_cardinality_check_bug :
    cardinalityMatches ["flag"] ⟨true, [("abc", 2)]⟩ = true ∧
    (push envFalse 4 [⟨true, [("abc", 2)]⟩]).closeAllCalled = true ∧
    (push envFalse 4 [⟨true, [("abc", 2)]⟩]).realEnq = [] := by decide

/-- C3: after a completed shutdown (threads were started and one
`close_all` finished), a second `close_all` returns normally and leaves
the state unchanged. -/
theorem C3_close_all_idempotent (s : RunnerState) (h : s.threads ≠ 0) :
    close_all ((close_all s).2) = (CloseResult.ok, (close_all s).2) := by
  obtain ⟨n, sc, sr, qc⟩ := s
  cases sc <;> simp [close_all, h]

theorem C3_close_all_idempotent_witness :
    close_all ((close_all ⟨2, false, false, false⟩).2) =
      (CloseResult.ok, (close_all ⟨2, false, false, false⟩).2) :=
  C3_close_all_idempotent ⟨2, false, false, false⟩ (by decide)

/-- C4: for every requested capacity `c` and batch size `b > 0`, the
constructor succeeds and stores effective capacity `max c (2*b)`. -/
theorem C4_capacity_raised (b c : Nat) (sh : Bool) (h : 0 < b) :
    ∃ cfg, initRunner b c sh = some cfg ∧ cfg.capacity = max c (2 * b) := by
  rw [initRunner, if_pos h]
  exact ⟨_, rfl, by rw [Nat.mul_comm b 2]⟩

theorem C4_capacity_raised_witness :
    ∃ cfg, initRunner 3 10 true = some cfg ∧ cfg.capacity = max 10 (2 * 3) :=
  C4_capacity_raised 3 10 true (by decide)

/-- C5: the minimum-fill floor stored by the constructor is the
effective capacity divided by two (Python 2 integer division) in
shuffled mode, and `0` in FIFO mode. -/
theorem C5_min_queue_size (b c : Nat) (sh : Bool) (cfg : RunnerConfig)
    (h : initRunner b c sh = some cfg) :
    cfg.min_queue_size = if sh then cfg.capacity / 2 else 0 := by
  rw [initRunner] at h
  by_cases hb : b > 0
  · rw [if_pos hb] at h
    injection h with h
    subst h
    cases sh <;> rfl
  · rw [if_neg hb] at h
    exact absurd h (by simp)

theorem C5_min_queue_size_witness :
    initRunner 3 7 true = some ⟨3, 7, true, 3⟩ ∧
    (⟨3, 7, true, 3⟩ : RunnerConfig).min_queue_size =
      (if true then (⟨3, 7, true, 3⟩ : RunnerConfig).capacity / 2 else 0) :=
  ⟨by decide, C5_min_queue_size 3 7 true ⟨3, 7, true, 3⟩ (by decide)⟩

/-- C6: calling `close_all` on an instance with no started threads
raises the `RuntimeError` usage error and changes nothing. -/
theorem C6_close_all_not_running (s : RunnerState) (h : s.threads = 0) :
    close_all s = (CloseResult.notRunning, s) := by
  simp [close_all, h]

theorem C6_close_all_not_running_witness :
    close_all initState = (CloseResult.notRunning, initState) :=
  C6_close_all_not_running initState rfl

/-- C7: a `CancelledError` caught during an enqueue makes the producer
exit cleanly: no error handler runs and `close_all` is not called. -/
theorem C7_cancelled_clean_exit (env : Env) (capacity : Nat)
    (records : List ImagePatch) (t : Nat)
    (h : (push env capacity records).cancelledAt = some t) :
    (push env capacity records).cleanExit = true ∧
    (push env capacity records).closeAllCalled = false := by
  have h2 : (push env capacity records).cancelledAt.isSome = true := by
    rw [h]; rfl
  exact iterLoop_cancel_clean env capacity records 0 none h2

theorem C7_cancelled_clean_exit_witness :
    (push envCancel 4 [⟨true, [("ab", 2)]⟩]).cancelledAt = some 0 ∧
    ((push envCancel 4 [⟨true, [("ab", 2)]⟩]).cleanExit = true ∧
      (push envCancel 4 [⟨true, [("ab", 2)]⟩]).closeAllCalled = false) :=
  ⟨by decide,
    C7_cancelled_clean_exit envCancel 4 [⟨true, [("ab", 2)]⟩] 0 (by decide)⟩

/-- C8: every enqueue (real record or stopping patch) happens at a tick
where both the session-closed flag and the stop flag read false, and
with monotone flags every enqueue strictly precedes any tick at which
either flag is raised. -/
theorem C8_no_enqueue_after_signal (env : Env) (capacity : Nat)
    (records : List ImagePatch) (t : Nat)
    (h : t ∈ (push env capacity records).realEnq ++
          (push env capacity records).stopEnq) :
    (env.closed t = false ∧ env.stop t = false) ∧
    (MonoSig env.closed → MonoSig env.stop →
      ∀ s, (env.closed s || env.stop s) = true → t < s) := by
  have h1 := iterLoop_mem env capacity records 0 none t h
  refine ⟨h1, fun hc hs s hsig => ?_⟩
  by_contra hlt
  push_neg at hlt
  rcases Bool.or_eq_true_iff.mp hsig with hcs | hss
  · have h2 := hc s t hlt hcs
    rw [h1.1] at h2
    exact Bool.false_ne_true h2
  · have h2 := hs s t hlt hss
    rw [h1.2] at h2
    exact Bool.false_ne_true h2

theorem C8_no_enqueue_after_signal_witness :
    0 ∈ (push envFalse 1 [⟨true, [("ab", 2)]⟩]).realEnq ++
          (push envFalse 1 [⟨true, [("ab", 2)]⟩]).stopEnq ∧
    ((envFalse.closed 0 = false ∧ envFalse.stop 0 = false) ∧
      (MonoSig envFalse.closed → MonoSig envFalse.stop →
        ∀ s, (envFalse.closed s || envFalse.stop s) = true → 0 < s)) :=
  ⟨by decide,
    C8_no_enqueue_after_signal envFalse 1 [⟨true, [("ab", 2)]⟩] 0 (by decide)⟩

/-- C9: `current_queue_size` returns `0` once the session is closed and
the engine-reported buffered count while it is open. -/
theorem C9_current_queue_size (sessionClosed : Bool) (queueSize : Nat) :
    (sessionClosed = true → current_queue_size sessionClosed queueSize = 0) ∧
    (sessionClosed = false →
      current_queue_size sessionClosed queueSize = queueSize) := by
  constructor <;> intro h <;> simp [current_queue_size, h]

theorem C9_current_queue_size_witness :
    current_queue_size true 5 = 0 ∧ current_queue_size false 5 = 5 :=
  ⟨(C9_current_queue_size true 5).1 rfl, (C9_current_queue_size false 5).2 rfl⟩

/-- C10: on an empty source iterator with no early stop at the first
flood tick, the thread hits the unbound loop variable, the generic
handler runs (`close_all` is called), and no StopRecord is enqueued. -/
theorem C10_empty_iterator_error (env : Env) (capacity : Nat)
    (hcap : 0 < capacity)
    (h1 : env.closed 0 = false) (h2 : env.stop 0 = false) :
    push env capacity [] = errorOut ∧
    (push env capacity []).closeAllCalled = true ∧
    (push env capacity []).stopEnq = [] := by
  obtain ⟨m, rfl⟩ :=
    Nat.exists_eq_succ_of_ne_zero (Nat.pos_iff_ne_zero.mp hcap)
  have h3 : push env (m + 1) [] = errorOut := floodLoop_unbound env m 0 h1 h2
  exact ⟨h3, by rw [h3]; rfl, by rw [h3]; rfl⟩

theorem C10_empty_iterator_error_witness :
    (0 < 4 ∧ envFalse.closed 0 = false ∧ envFalse.stop 0 = false) ∧
    push envFalse 4 [] = errorOut :=
  ⟨⟨by decide, rfl, rfl⟩,
    (C10_empty_iterator_error envFalse 4 (by decide) rfl rfl).1⟩
